import Mathlib

/-!
# Verification of the Session & Resolution Layer of kroger-mcp

Shallow embedding of the credential-lifecycle, location-resolution,
preference-store and sale-ranking code of the repository
(`src/kroger_mcp/tools/shared.py`, `src/kroger_mcp/tools/product_tools.py`,
`test_prompts_ui.py`), together with proofs and refutations of the
specification's claims about it.

Prices are modelled as rationals (`ℚ`); the Python code uses decimal
currency values for which rational arithmetic is exact.  Upstream network
calls (liveness probe, credential exchange, token refresh, store lookup)
are modelled as oracles carried in an environment record, and each
function additionally returns the ordered list of upstream events it
performed, so that claims about "exactly one call" are statable.
-/

/- ------------------------------------------------------------------ -/
/- Preference Store (`shared.py`, `_load_preferences`,
   `_save_preferences`, `get_preferred_location_id`,
   `set_preferred_location_id`).                                       -/
/- ------------------------------------------------------------------ -/

/-- A preferences JSON object: an insertion-ordered mapping from key to a
nullable string value, as produced by `json.load` on the preferences
file.  `none` models a JSON `null` value. -/
abbrev Prefs := List (String × Option String)

/-- Python `dict.get(k)`: the stored value when the key is present
(possibly `null`), and `None` when the key is absent.  Both `null` and
"absent" collapse to `none`. -/
def dictGet (d : Prefs) (k : String) : Option String :=
  match d with
  | [] => none
  | (k', v) :: rest => if k' == k then v else dictGet rest k

/-- Python `d[k] = v`: update the value in place if the key exists
(keeping its position), otherwise append the pair. -/
def dictSet (d : Prefs) (k : String) (v : Option String) : Prefs :=
  match d with
  | [] => [(k, v)]
  | (k', v') :: rest => if k' == k then (k, v) :: rest else (k', v') :: dictSet rest k v

/-- The observable state of the preferences file
(`kroger_preferences.json`): absent, present but unreadable or
unparseable (`json.load`/`open` raises), or readable JSON content. -/
inductive FileRead where
  | missing : FileRead
  | corrupt : FileRead
  | content : Prefs → FileRead
deriving DecidableEq, Repr

/-- The default record returned by `_load_preferences` when the file is
absent or unreadable: `{"preferred_location_id": None}`. -/
def defaultPreferences : Prefs := [("preferred_location_id", none)]

/-- `_load_preferences` (shared.py lines 152-160).  If the file exists and
parses, its content is returned; if it is absent, or if opening/parsing
raises, the default record is returned.  The exception branch prints a
warning and falls through — the caller receives a normal value either
way, so this function is total with no error channel. -/
def _load_preferences (fs : FileRead) : Prefs :=
  match fs with
  | .content d => d
  | .missing => defaultPreferences
  | .corrupt => defaultPreferences

/-- `_save_preferences` (shared.py lines 163-169).  `writable` models
whether `open(..., 'w')`/`json.dump` succeeds.  On failure the exception
is caught, a warning is printed, and the file is left as it was — the
caller again receives a normal (unit) result. -/
def _save_preferences (writable : Bool) (d : Prefs) (fs : FileRead) : FileRead :=
  if writable then .content d else fs

/-- `get_preferred_location_id` (shared.py lines 172-175). -/
def get_preferred_location_id (fs : FileRead) : Option String :=
  dictGet (_load_preferences fs) "preferred_location_id"

/-- `set_preferred_location_id` (shared.py lines 178-182): load, assign
the key, save.  Returns the resulting file state. -/
def set_preferred_location_id (writable : Bool) (v : Option String) (fs : FileRead) : FileRead :=
  _save_preferences writable (dictSet (_load_preferences fs) "preferred_location_id" v) fs

/- ------------------------------------------------------------------ -/
/- Pricing (`product_tools.py`, pricing blocks of `search_products`
   lines 241-250 and `get_product_details` lines 371-381).             -/
/- ------------------------------------------------------------------ -/

/-- The `price` object of an upstream catalog item: `regular` and
`promo` fields, each possibly absent. -/
structure PriceInfo where
  regular : Option ℚ
  promo : Option ℚ
deriving DecidableEq, Repr

/-- The `on_sale` flag computed identically in `search_products`
(line 249) and `get_product_details` (line 379):
`price.get("promo") is not None and price.get("promo") < price.get("regular", float('inf'))`.
A missing `regular` defaults to positive infinity, against which every
promo price compares strictly less. -/
def on_sale (pi : PriceInfo) : Bool :=
  match pi.promo, pi.regular with
  | none, _ => false
  | some _, none => true
  | some p, some r => p < r

theorem on_sale_promo_none (r : Option ℚ) : on_sale ⟨r, none⟩ = false := by
  cases r <;> rfl

/- ------------------------------------------------------------------ -/
/- Credential Session Manager (`shared.py`,
   `get_client_credentials_client` lines 27-73 and
   `get_authenticated_client` lines 76-137).                           -/
/- ------------------------------------------------------------------ -/

/-- Upstream calls performed by the session manager, in order.
`probe t` is `test_current_token()` on a client currently holding token
`t`; `exchange` is `get_token_with_client_credentials`; `refresh` is
`authorization.refresh_token`. -/
inductive SEvent where
  | probe : String → SEvent
  | exchange : SEvent
  | refresh : SEvent
deriving DecidableEq, Repr

/-- Error outcome of `get_client_credentials_client`: every exception is
wrapped into the single `"Failed to get client credentials"` form. -/
inductive AppErr where
  | credentialAcquisition : AppErr
deriving DecidableEq, Repr

/-- Environment for the application-purpose acquisition:
`cached` is the module-global `_client_credentials_client`'s token
(`none` when the global is `None`); `envOk` is whether
`load_and_validate_env` succeeds; `disk` is the token in
`.kroger_token_client_product.compact.json` (`none` when `load_token`
finds nothing); `probeOk t` is the result of `test_current_token()`
for a client holding `t`; `exchangeResult` is the outcome of the
client-credentials exchange. -/
structure AppEnv where
  cached : Option String
  envOk : Bool
  disk : Option String
  probeOk : String → Bool
  exchangeResult : Except Unit String

/-- The body of `get_client_credentials_client` after the in-memory
cache check (shared.py lines 34-73): validate env vars, try the on-disk
token (probing it if present), and otherwise perform the
client-credentials exchange, returning the client immediately —
without probing the freshly exchanged token. -/
def acquireAppFresh (env : AppEnv) (evs : List SEvent) :
    Except AppErr String × List SEvent :=
  if env.envOk then
    match env.disk with
    | some t =>
      if env.probeOk t then (.ok t, evs ++ [.probe t])
      else
        match env.exchangeResult with
        | .ok t' => (.ok t', evs ++ [.probe t, .exchange])
        | .error _ => (.error .credentialAcquisition, evs ++ [.probe t, .exchange])
    | none =>
      match env.exchangeResult with
      | .ok t' => (.ok t', evs ++ [.exchange])
      | .error _ => (.error .credentialAcquisition, evs ++ [.exchange])
  else (.error .credentialAcquisition, evs)

/-- `get_client_credentials_client` (shared.py lines 27-73).  Returns
the acquired token (the session) or the wrapped error, together with the
ordered list of upstream calls made. -/
def get_client_credentials_client (env : AppEnv) :
    Except AppErr String × List SEvent :=
  match env.cached with
  | some t =>
    if env.probeOk t then (.ok t, [.probe t])
    else acquireAppFresh env [.probe t]
  | none => acquireAppFresh env []

/-- A stored user token record (`.kroger_token_user.json`): the access
token and, optionally, a refresh token (`"refresh_token" in token_info`). -/
structure TokenRec where
  access : String
  refresh : Option String
deriving DecidableEq, Repr

/-- Error outcome of `get_authenticated_client`: the distinguished
`"Authentication required"` message, or the generic
`"Authentication failed"` wrapper for any other exception. -/
inductive UserErr where
  | authRequired : UserErr
  | authFailed : UserErr
deriving DecidableEq, Repr

/-- Environment for the user-purpose acquisition, mirroring `AppEnv`:
`refreshResult` is the outcome of `authorization.refresh_token`
(`.ok t` leaves the client holding the new access token `t`; `.error`
models the call raising). -/
structure UserEnv where
  cached : Option String
  envOk : Bool
  disk : Option TokenRec
  probeOk : String → Bool
  refreshResult : Except Unit String

/-- Lines 96-137 of `get_authenticated_client`: the path taken after the
in-memory cache check fails (global cleared, env vars validated, on-disk
record tried, refresh attempted once).  `evs` is the trace accumulated so
far. -/
def acquireUserFresh (env : UserEnv) (evs : List SEvent) :
    Except UserErr String × List SEvent × Option String :=
  if env.envOk then
    match env.disk with
    | none => (.error .authRequired, evs, none)
    | some rec =>
      let evs1 := evs ++ [.probe rec.access]
      if env.probeOk rec.access then (.ok rec.access, evs1, some rec.access)
      else
        match rec.refresh with
        | none => (.error .authRequired, evs1, some rec.access)
        | some _ =>
          let evs2 := evs1 ++ [.refresh]
          match env.refreshResult with
          | .error _ => (.error .authRequired, evs2, none)
          | .ok t2 =>
            if env.probeOk t2 then (.ok t2, evs2 ++ [.probe t2], some t2)
            else (.error .authRequired, evs2 ++ [.probe t2], some t2)
  else (.error .authFailed, evs, none)

/-- `get_authenticated_client` (shared.py lines 76-137).  Returns the
outcome, the ordered upstream-call trace, and the final value of the
module-global `_authenticated_client` (as its held access token).
Faithful details: a failed initial probe on a loaded record with no
refresh token leaves the global set to the freshly created client
(line 107 assigns it before the probe); a refresh call that raises
clears the global (line 124); a refresh that succeeds but whose
post-refresh probe fails leaves the global holding the refreshed token
and falls through to the `"Authentication required"` raise (lines
120-130). -/
def get_authenticated_client (env : UserEnv) :
    Except UserErr String × List SEvent × Option String :=
  match env.cached with
  | some t =>
    if env.probeOk t then (.ok t, [.probe t], some t)
    else acquireUserFresh env [.probe t]
  | none => acquireUserFresh env []

/-- `invalidate_client_credentials_client` (shared.py lines 146-149):
drop the in-memory application client unconditionally. -/
def invalidate_client_credentials_client (env : AppEnv) : AppEnv :=
  { env with cached := none }

/-- `invalidate_authenticated_client` (shared.py lines 140-143):
drop the in-memory user client unconditionally. -/
def invalidate_authenticated_client (env : UserEnv) : UserEnv :=
  { env with cached := none }

/- ------------------------------------------------------------------ -/
/- Location Resolver (`product_tools.py`, the resolution preamble of
   `search_products`, lines 166-194).                                  -/
/- ------------------------------------------------------------------ -/

/-- Observable actions of the resolution chain: reading the Preference
Store (`get_preferred_location_id()`), the nearest-store lookup
(`client.location.search_locations(zip_code=..., limit=1)`), and a
Preference Store write (`set_preferred_location_id`, which the
resolution chain itself never performs). -/
inductive LEvent where
  | prefRead : LEvent
  | lookup : LEvent
  | prefWrite : LEvent
deriving DecidableEq, Repr

/-- Python truthiness of an optional string: `None` and `""` are falsy;
the code guards each fallback step with `if not location_id`. -/
def truthy : Option String → Bool
  | none => false
  | some s => !(s == "")

/-- The error message returned when no location can be resolved
(product_tools.py line 193) — the same message whether or not a postal
code was available or a lookup was attempted. -/
def noLocationMsg : String :=
  "No location_id provided, no preferred location set, and no valid zip_code provided. Please provide either location_id or zip_code."

/-- Environment for location resolution: the Preference Store file and
the outcome of the nearest-store lookup.  `lookupResult` is the `"data"`
list of `search_locations` (each element's `locationId`, possibly
absent); `.error` models the call raising, which the code catches and
logs, continuing unresolved. -/
structure LocEnv where
  prefFile : FileRead
  lookupResult : Except Unit (List (Option String))

/-- The location-id fallback value after the optional nearest-store
lookup (product_tools.py lines 171-188): if the lookup succeeds and its
data list is non-empty, `data[0].get("locationId")` is assigned (even
when that field is absent); otherwise the previous value is kept. -/
def lookupStep (env : LocEnv) (prev : Option String) : Option String :=
  match env.lookupResult with
  | .error _ => prev
  | .ok data =>
    match data.head? with
    | none => prev
    | some entry => entry

/-- The final guard of the resolution preamble (product_tools.py lines
190-194): if the fallback chain left a falsy location id, return the
single error result; otherwise resolution succeeded. -/
def finishResolve (loc : Option String) (evs : List LEvent) :
    Except String String × List LEvent :=
  if truthy loc then (.ok (loc.getD ""), evs) else (.error noLocationMsg, evs)

/-- The resolution preamble of `search_products` (product_tools.py
lines 166-194): an explicit truthy `location_id` is used as-is;
otherwise the Preference Store is consulted; otherwise, when a truthy
`zip_code` is present, one nearest-store lookup is performed; if the
result is still falsy, the single error message is returned.  Returns
the outcome (resolved id or error message) and the ordered event
trace. -/
def search_products_resolve (env : LocEnv) (location_id zip_code : Option String) :
    Except String String × List LEvent :=
  if truthy location_id then (.ok (location_id.getD ""), [])
  else
    let l1 := get_preferred_location_id env.prefFile
    if !truthy l1 && truthy zip_code then
      finishResolve (lookupStep env l1) [LEvent.prefRead, LEvent.lookup]
    else
      finishResolve l1 [LEvent.prefRead]

/- ------------------------------------------------------------------ -/
/- Sale Ranking Engine (`test_prompts_ui.py`, the
   `find_items_on_sale` branch of `execute_prompt_actions`,
   lines 570-649, consuming the formatted output of
   `search_products`).                                                 -/
/- ------------------------------------------------------------------ -/

/-- A formatted product as produced by `search_products`: the fields the
ranking computation reads.  `price` is `none` when the upstream item had
no price block (then the formatted product has no `"pricing"` key and
`product.get("pricing", {})` is falsy).  `description` and `brand` keys
are always present in a formatted product but may hold `null`;
`aisleDescriptions` holds the `description` fields of the formatted
`aisle_locations` list. -/
structure PricedItem where
  description : Option String
  brand : Option String
  price : Option PriceInfo
  aisleDescriptions : List (Option String)
deriving DecidableEq, Repr

/-- An element of `sale_items` (test_prompts_ui.py lines 628-636). -/
structure SaleEntry where
  description : Option String
  brand : Option String
  regular_price : ℚ
  sale_price : ℚ
  savings : ℚ
  discount_pct : ℚ
  aisle : Option String
deriving DecidableEq, Repr

/-- The per-product filter and computation (test_prompts_ui.py lines
615-636): a product contributes an entry iff it has a pricing block
whose `on_sale` flag is set and, after defaulting missing prices to `0`
(`pricing.get(..., 0) or 0`), `regular > 0 and sale < regular`; then
`savings = regular - sale` and
`discount_pct = savings / regular * 100`. -/
def mkSaleEntry (p : PricedItem) : Option SaleEntry :=
  match p.price with
  | none => none
  | some pi =>
    if on_sale pi then
      let regular := pi.regular.getD 0
      let sale := pi.promo.getD 0
      if 0 < regular ∧ sale < regular then
        let savings := regular - sale
        some { description := p.description
               brand := p.brand
               regular_price := regular
               sale_price := sale
               savings := savings
               discount_pct := savings / regular * 100
               aisle := match p.aisleDescriptions.head? with
                        | none => some "N/A"
                        | some d => d }
      else none
    else none

/-- `sale_items` before sorting: the entries in product order. -/
def saleEntries (items : List PricedItem) : List SaleEntry :=
  items.filterMap mkSaleEntry

/-- Stable descending insertion by `savings`: the element passes every
entry with strictly greater savings and stops in front of the first
entry whose savings are less than or equal to its own. -/
def insertBySavings (x : SaleEntry) : List SaleEntry → List SaleEntry
  | [] => [x]
  | y :: ys => if x.savings < y.savings then y :: insertBySavings x ys else x :: y :: ys

/-- `sale_items.sort(key=lambda x: x.get("savings", 0), reverse=True)`
(test_prompts_ui.py line 648): Python's `list.sort` is a stable sort;
this insertion sort computes the same list — descending by `savings`,
entries with equal savings kept in input order. -/
def sortBySavings (l : List SaleEntry) : List SaleEntry :=
  match l with
  | [] => []
  | x :: xs => insertBySavings x (sortBySavings xs)

/-- The `limit` argument handling (test_prompts_ui.py lines 573-581):
the argument string is parsed (`none` models a failed `int()` parse,
defaulting to 20) and clamped below at 1 and above at 50. -/
def clampLimit : Option Int → Nat
  | none => 20
  | some n => if n < 1 then 1 else if n > 50 then 50 else n.toNat

/-- The whole sale-ranking computation of `find_items_on_sale`
(test_prompts_ui.py lines 573-649): filter and annotate, sort descending
by savings, truncate to the clamped limit. -/
def rankOnSale (items : List PricedItem) (limit : Option Int) : List SaleEntry :=
  (sortBySavings (saleEntries items)).take (clampLimit limit)

/- ------------------------------------------------------------------ -/
/- Helper lemmas.                                                      -/
/- ------------------------------------------------------------------ -/

theorem dictGet_dictSet (d : Prefs) (k : String) (v : Option String) :
    dictGet (dictSet d k v) k = v := by
  induction d with
  | nil => simp [dictSet, dictGet]
  | cons hd tl ih =>
    obtain ⟨k', v'⟩ := hd
    by_cases h : k' == k
    · simp [dictSet, dictGet, h]
    · simp only [dictSet, dictGet, h, if_neg]
      simp [h, ih]

theorem mem_insertBySavings (x y : SaleEntry) (l : List SaleEntry) :
    y ∈ insertBySavings x l ↔ y = x ∨ y ∈ l := by
  induction l with
  | nil => simp [insertBySavings]
  | cons z zs ih =>
    by_cases h : x.savings < z.savings
    · simp only [insertBySavings, if_pos h, List.mem_cons, ih]
      tauto
    · simp [insertBySavings, if_neg h, List.mem_cons]

theorem mem_sortBySavings (y : SaleEntry) (l : List SaleEntry) :
    y ∈ sortBySavings l ↔ y ∈ l := by
  induction l with
  | nil => simp [sortBySavings]
  | cons z zs ih => simp [sortBySavings, mem_insertBySavings, ih]

theorem pairwise_insertBySavings (x : SaleEntry) (l : List SaleEntry)
    (h : l.Pairwise (fun a b => b.savings ≤ a.savings)) :
    (insertBySavings x l).Pairwise (fun a b => b.savings ≤ a.savings) := by
  induction l with
  | nil => simp [insertBySavings]
  | cons z zs ih =>
    rcases List.pairwise_cons.mp h with ⟨hz, hzs⟩
    by_cases hlt : x.savings < z.savings
    · rw [insertBySavings, if_pos hlt]
      refine List.pairwise_cons.mpr ⟨?_, ih hzs⟩
      intro a ha
      rcases (mem_insertBySavings x a zs).mp ha with rfl | ha'
      · exact le_of_lt hlt
      · exact hz a ha'
    · rw [insertBySavings, if_neg hlt]
      refine List.pairwise_cons.mpr ⟨?_, h⟩
      intro a ha
      rcases List.mem_cons.mp ha with rfl | ha'
      · exact le_of_not_lt hlt
      · exact le_trans (hz a ha') (le_of_not_lt hlt)

theorem pairwise_sortBySavings (l : List SaleEntry) :
    (sortBySavings l).Pairwise (fun a b => b.savings ≤ a.savings) := by
  induction l with
  | nil => simp [sortBySavings]
  | cons x xs ih => exact pairwise_insertBySavings x (sortBySavings xs) ih

theorem filter_insertBySavings (x : SaleEntry) (l : List SaleEntry) (c : ℚ) :
    (insertBySavings x l).filter (fun e => e.savings == c) =
      if x.savings = c then x :: l.filter (fun e => e.savings == c)
      else l.filter (fun e => e.savings == c) := by
  induction l with
  | nil =>
    by_cases h : x.savings = c <;> simp [insertBySavings, List.filter_cons, h]
  | cons z zs ih =>
    by_cases hlt : x.savings < z.savings
    · rw [insertBySavings, if_pos hlt]
      by_cases hxc : x.savings = c
      · have hzc : z.savings ≠ c := by
          intro hzc
          rw [hxc, hzc] at hlt
          exact lt_irrefl c hlt
        simp [List.filter_cons, hzc, hxc, ih]
      · simp [List.filter_cons, ih, hxc]
    · rw [insertBySavings, if_neg hlt]
      by_cases hxc : x.savings = c <;> simp [List.filter_cons, hxc]

/-- Stability of the sort: for every savings value `c`, the entries of
the sorted list with that savings value appear in the same order as in
the input. -/
theorem filter_sortBySavings (l : List SaleEntry) (c : ℚ) :
    (sortBySavings l).filter (fun e => e.savings == c) =
      l.filter (fun e => e.savings == c) := by
  induction l with
  | nil => simp [sortBySavings]
  | cons x xs ih =>
    rw [sortBySavings, filter_insertBySavings, List.filter_cons]
    by_cases hxc : x.savings = c <;> simp [hxc, ih]

/- ------------------------------------------------------------------ -/
/- Claims.                                                             -/
/- ------------------------------------------------------------------ -/

/-- C8: for every value `v`, `set_preferred_location_id v` followed by
`get_preferred_location_id` returns `v` (in particular
`v = "01400441"`), and setting `null` followed by a read returns `null`
(the preference is cleared).  Stated for a successful file write; the
write-failure behavior is the subject of C9. -/
theorem C8_roundtrip :
    (∀ (fs : FileRead) (v : Option String),
        get_preferred_location_id (set_preferred_location_id true v fs) = v) ∧
    get_preferred_location_id
      (set_preferred_location_id true (some "01400441") .missing) = some "01400441" ∧
    get_preferred_location_id
      (set_preferred_location_id true none
        (.content [("preferred_location_id", some "01400441")])) = none := by
  refine ⟨?_, rfl, rfl⟩
  intro fs v
  simp [get_preferred_location_id, set_preferred_location_id, _save_preferences,
    _load_preferences, dictGet_dictSet]

/-- C9 counterexample: a preference-file read failure is silently
replaced by the default record (a normal value, no error), a write
failure is a silent no-op, and a `set` whose write fails is absorbed —
the subsequent read returns the old (default) value with no error
surfaced to the caller. -/
theorem C9_counterexample :
    _load_preferences .corrupt = defaultPreferences ∧
    _save_preferences false [("preferred_location_id", some "X")] .missing = .missing ∧
    get_preferred_location_id (set_preferred_location_id false (some "X") .missing) = none := by
  exact ⟨rfl, rfl, rfl⟩

/-- C9 amended: upstream failures of the application credential
acquisition are propagated as errors, but preference-file read failures
are silently replaced by the default record and preference-file write
failures are silently ignored (a warning is printed and a normal result
returned). -/
theorem C9_amended :
    (∀ env : AppEnv, env.cached = none → env.envOk = true → env.disk = none →
        env.exchangeResult = .error () →
        (get_client_credentials_client env).1 = .error .credentialAcquisition) ∧
    _load_preferences .corrupt = defaultPreferences ∧
    (∀ (d : Prefs) (fs : FileRead), _save_preferences false d fs = fs) ∧
    (∀ (fs : FileRead) (v : Option String),
        get_preferred_location_id (set_preferred_location_id false v fs) =
          get_preferred_location_id fs) := by
  refine ⟨?_, rfl, fun d fs => rfl, fun fs v => rfl⟩
  intro env hc he hd hx
  simp [get_client_credentials_client, acquireAppFresh, hc, he, hd, hx]

/-- C9 amended, witnessed at a concrete environment: a failing
credential exchange on a first acquisition surfaces as the acquisition
error. -/
theorem C9_amended_witness :
    (get_client_credentials_client ⟨none, true, none, fun _ => true, .error ()⟩).1 =
      .error .credentialAcquisition := by
  exact C9_amended.1 ⟨none, true, none, fun _ => true, .error ()⟩ rfl rfl rfl rfl

/-- C10: the formatted `on_sale` flag is true exactly when a promotional
price is present and strictly less than the regular price, a missing
regular price being treated as positive infinity; consequently an item
with a promotional price but no regular price at all reports
`on_sale = true`. -/
theorem C10_on_sale :
    (∀ pi : PriceInfo, on_sale pi = true ↔
        ∃ p, pi.promo = some p ∧ ∀ r, pi.regular = some r → p < r) ∧
    on_sale ⟨none, some 1⟩ = true := by
  refine ⟨?_, rfl⟩
  intro pi
  obtain ⟨r, p⟩ := pi
  cases p with
  | none => simp [on_sale]
  | some pv =>
    cases r with
    | none => simp [on_sale]
    | some rv => simp [on_sale]

/-- C3 counterexample: the failure with no postal code available and the
failure after a postal-code lookup that returned no store produce the
very same error value — the code does not distinguish the two cases. -/
theorem C3_counterexample :
    (search_products_resolve ⟨.missing, .ok []⟩ none none).1 = .error noLocationMsg ∧
    (search_products_resolve ⟨.missing, .ok []⟩ none (some "45202")).1 =
      .error noLocationMsg := by
  exact ⟨rfl, rfl⟩

/-- C3 amended: when location resolution fails, the failure is a single
undifferentiated error carrying one fixed message, whatever the reason —
the only error value the resolution preamble ever returns is
`noLocationMsg`. -/
theorem finishResolve_error (loc : Option String) (evs : List LEvent) (e : String)
    (h : (finishResolve loc evs).1 = .error e) : e = noLocationMsg := by
  unfold finishResolve at h
  by_cases ht : truthy loc
  · simp [ht] at h
  · simp [ht] at h
    exact h.symm

theorem C3_amended (env : LocEnv) (lid zip : Option String) (e : String)
    (h : (search_products_resolve env lid zip).1 = .error e) :
    e = noLocationMsg := by
  unfold search_products_resolve at h
  by_cases h1 : truthy lid
  · simp [h1] at h
  · simp only [h1, Bool.false_eq_true, if_false] at h
    by_cases h2 : !truthy (get_preferred_location_id env.prefFile) && truthy zip
    · rw [if_pos h2] at h
      exact finishResolve_error _ _ _ h
    · rw [if_neg h2] at h
      exact finishResolve_error _ _ _ h

/-- C3 amended, witnessed: the no-postal-code failure carries exactly
the fixed message. -/
theorem C3_amended_witness :
    (search_products_resolve ⟨.missing, .ok []⟩ none none).1 = .error noLocationMsg ∧
    noLocationMsg = noLocationMsg := by
  exact ⟨rfl, C3_amended ⟨.missing, .ok []⟩ none none noLocationMsg rfl⟩

/-- Recognizer for liveness-probe events. -/
def isProbe : SEvent → Bool
  | .probe _ => true
  | _ => false

/-- C1 counterexample: on a first call with no in-memory session and no
on-disk token, `get_client_credentials_client` performs exactly one
credential-exchange call and returns the session with no liveness probe
at all — the claimed exchange-then-probe sequence does not happen. -/
theorem C1_counterexample :
    get_client_credentials_client ⟨none, true, none, fun _ => true, .ok "T"⟩ =
      (.ok "T", [.exchange]) ∧
    (get_client_credentials_client ⟨none, true, none, fun _ => true, .ok "T"⟩).2.countP
      (fun e => isProbe e) = 0 := by
  exact ⟨rfl, rfl⟩

/-- C1 amended: the cached-token path and the disk-loaded path each
probe the token they return, but the freshly-exchanged-credentials path
returns the session without a liveness probe; in particular a first call
with no in-memory session and no on-disk token performs exactly one
credential-exchange call and no liveness probe. -/
theorem C1_amended :
    (∀ (env : AppEnv) (t : String), env.cached = some t → env.probeOk t = true →
        get_client_credentials_client env = (.ok t, [.probe t])) ∧
    (∀ (env : AppEnv) (t : String), env.cached = none → env.envOk = true →
        env.disk = some t → env.probeOk t = true →
        get_client_credentials_client env = (.ok t, [.probe t])) ∧
    (∀ env : AppEnv, env.cached = none → env.envOk = true → env.disk = none →
        (get_client_credentials_client env).2 = [.exchange] ∧
        ∀ t, env.exchangeResult = .ok t →
          (get_client_credentials_client env).1 = .ok t) := by
  refine ⟨?_, ?_, ?_⟩
  · intro env t hc hp
    simp [get_client_credentials_client, hc, hp]
  · intro env t hc he hd hp
    simp [get_client_credentials_client, acquireAppFresh, hc, he, hd, hp]
  · intro env hc he hd
    constructor
    · rcases hx : env.exchangeResult with u | t <;>
        simp [get_client_credentials_client, acquireAppFresh, hc, he, hd, hx]
    · intro t hx
      simp [get_client_credentials_client, acquireAppFresh, hc, he, hd, hx]

/-- C1 amended, witnessed at concrete environments: a valid cached token
is probed and returned; a first call with nothing acquired performs the
exchange alone. -/
theorem C1_amended_witness :
    get_client_credentials_client ⟨some "C", true, none, fun _ => true, .ok "T"⟩ =
      (.ok "C", [.probe "C"]) ∧
    (get_client_credentials_client ⟨none, true, none, fun _ => false, .ok "U"⟩).2 =
      [.exchange] := by
  exact ⟨C1_amended.1 ⟨some "C", true, none, fun _ => true, .ok "T"⟩ "C" rfl rfl,
    (C1_amended.2.2 ⟨none, true, none, fun _ => false, .ok "U"⟩ rfl rfl rfl).1⟩

/-- C2: location resolution honors strict precedence — a provided
(non-empty) explicit id is returned with no store read and no lookup;
otherwise a set preference wins, with only the store read; otherwise,
with a postal code present, exactly one nearest-store lookup is
performed, a successfully looked-up identifier is returned, and the
Preference Store is never written. -/
theorem C2_resolution_precedence :
    (∀ (env : LocEnv) (s : String) (zip : Option String), s ≠ "" →
        search_products_resolve env (some s) zip = (.ok s, [])) ∧
    (∀ (env : LocEnv) (lid zip : Option String) (s : String),
        truthy lid = false → get_preferred_location_id env.prefFile = some s →
        s ≠ "" →
        search_products_resolve env lid zip = (.ok s, [.prefRead])) ∧
    (∀ (env : LocEnv) (lid zip : Option String),
        truthy lid = false →
        truthy (get_preferred_location_id env.prefFile) = false →
        truthy zip = true →
        (search_products_resolve env lid zip).2.count LEvent.lookup = 1 ∧
        LEvent.prefWrite ∉ (search_products_resolve env lid zip).2 ∧
        ∀ (s : String) (rest : List (Option String)),
          env.lookupResult = .ok (some s :: rest) → s ≠ "" →
          (search_products_resolve env lid zip).1 = .ok s) := by
  refine ⟨?_, ?_, ?_⟩
  · intro env s zip hs
    simp [search_products_resolve, truthy, hs]
  · intro env lid zip s hl hp hs
    have hts : truthy (some s) = true := by simp [truthy, hs]
    simp [search_products_resolve, finishResolve, hl, hp, hts]
  · intro env lid zip hl hp hz
    have hcond : (!truthy (get_preferred_location_id env.prefFile) && truthy zip) = true := by
      simp [hp, hz]
    refine ⟨?_, ?_, ?_⟩
    · simp only [search_products_resolve, hl, Bool.false_eq_true, if_false, hcond, if_true]
      unfold finishResolve
      by_cases ht : truthy (lookupStep env (get_preferred_location_id env.prefFile)) <;>
        simp [ht, List.count_cons]
    · simp only [search_products_resolve, hl, Bool.false_eq_true, if_false, hcond, if_true]
      unfold finishResolve
      by_cases ht : truthy (lookupStep env (get_preferred_location_id env.prefFile)) <;>
        simp [ht]
    · intro s rest hlk hs
      have hstep : lookupStep env (get_preferred_location_id env.prefFile) = some s := by
        simp [lookupStep, hlk]
      have hts : truthy (some s) = true := by simp [truthy, hs]
      simp only [search_products_resolve, hl, Bool.false_eq_true, if_false, hcond, if_true]
      simp [finishResolve, hstep, hts]

/-- C2, witnessed at concrete inputs: an explicit id wins; a stored
preference wins; with neither, the single postal-code lookup's
identifier is returned with exactly one lookup and no store write. -/
theorem C2_resolution_precedence_witness :
    search_products_resolve ⟨.missing, .ok []⟩ (some "EXPL") (some "45202") =
      (.ok "EXPL", []) ∧
    search_products_resolve ⟨.content [("preferred_location_id", some "PREF")], .ok []⟩
      none (some "45202") = (.ok "PREF", [.prefRead]) ∧
    (search_products_resolve ⟨.missing, .ok [some "01400441"]⟩ none
      (some "45202")).2.count LEvent.lookup = 1 ∧
    (search_products_resolve ⟨.missing, .ok [some "01400441"]⟩ none
      (some "45202")).1 = .ok "01400441" := by
  refine ⟨C2_resolution_precedence.1 ⟨.missing, .ok []⟩ "EXPL" (some "45202") (by decide),
    C2_resolution_precedence.2.1 ⟨.content [("preferred_location_id", some "PREF")], .ok []⟩
      none (some "45202") "PREF" rfl rfl (by decide),
    (C2_resolution_precedence.2.2 ⟨.missing, .ok [some "01400441"]⟩ none (some "45202")
      rfl rfl rfl).1,
    (C2_resolution_precedence.2.2 ⟨.missing, .ok [some "01400441"]⟩ none (some "45202")
      rfl rfl rfl).2.2 "01400441" [] rfl (by decide)⟩

/-- C6: with a stored token record containing a refresh token, after the
initial liveness probe fails `get_authenticated_client` attempts exactly
one token refresh; when the refresh succeeds, a liveness probe on the
refreshed token is attempted before the session is returned (the session
is returned only when that probe passes); when the refresh call fails,
the in-memory client is dropped and the distinguished
"authentication required" error is raised. -/
theorem C6_user_refresh (env : UserEnv) (rec : TokenRec) (rt : String)
    (hc : env.cached = none) (he : env.envOk = true) (hd : env.disk = some rec)
    (hr : rec.refresh = some rt) (hp : env.probeOk rec.access = false) :
    (get_authenticated_client env).2.1.count SEvent.refresh = 1 ∧
    (∀ t2, env.refreshResult = .ok t2 →
      (get_authenticated_client env).2.1 = [.probe rec.access, .refresh, .probe t2] ∧
      (env.probeOk t2 = true → (get_authenticated_client env).1 = .ok t2) ∧
      (env.probeOk t2 = false →
        (get_authenticated_client env).1 = .error .authRequired)) ∧
    (env.refreshResult = .error () →
      (get_authenticated_client env).1 = .error .authRequired ∧
      (get_authenticated_client env).2.2 = none) := by
  refine ⟨?_, ?_, ?_⟩
  · rcases hx : env.refreshResult with u | t2
    · simp [get_authenticated_client, acquireUserFresh, hc, he, hd, hr, hp, hx,
        List.count_cons]
    · by_cases hp2 : env.probeOk t2 <;>
        simp [get_authenticated_client, acquireUserFresh, hc, he, hd, hr, hp, hx, hp2,
          List.count_cons]
  · intro t2 hx
    by_cases hp2 : env.probeOk t2 <;>
      simp [get_authenticated_client, acquireUserFresh, hc, he, hd, hr, hp, hx, hp2]
  · intro hx
    simp [get_authenticated_client, acquireUserFresh, hc, he, hd, hr, hp, hx]

/-- C6, witnessed at a concrete environment: stored record `"A"` with
refresh token `"R"`, failing initial probe, successful refresh to `"B"`,
passing post-refresh probe. -/
theorem C6_user_refresh_witness :
    (get_authenticated_client ⟨none, true, some ⟨"A", some "R"⟩, fun t => t == "B",
      .ok "B"⟩).2.1.count SEvent.refresh = 1 ∧
    (get_authenticated_client ⟨none, true, some ⟨"A", some "R"⟩, fun t => t == "B",
      .ok "B"⟩).2.1 = [.probe "A", .refresh, .probe "B"] ∧
    (get_authenticated_client ⟨none, true, some ⟨"A", some "R"⟩, fun t => t == "B",
      .ok "B"⟩).1 = .ok "B" := by
  refine ⟨(C6_user_refresh _ ⟨"A", some "R"⟩ "R" rfl rfl rfl rfl rfl).1,
    ((C6_user_refresh _ ⟨"A", some "R"⟩ "R" rfl rfl rfl rfl rfl).2.1 "B" rfl).1,
    ((C6_user_refresh _ ⟨"A", some "R"⟩ "R" rfl rfl rfl rfl rfl).2.1 "B" rfl).2.1 rfl⟩

/-- Every entry of the ranking output originates from an input item via
`mkSaleEntry`. -/
theorem mem_rankOnSale (items : List PricedItem) (lim : Option Int) (e : SaleEntry)
    (h : e ∈ rankOnSale items lim) : ∃ p ∈ items, mkSaleEntry p = some e := by
  have h1 : e ∈ sortBySavings (saleEntries items) := List.take_subset _ _ h
  have h2 : e ∈ saleEntries items := (mem_sortBySavings e _).mp h1
  exact List.mem_filterMap.mp h2

/-- Inversion of the per-item computation: a produced entry comes from a
pricing block passing the on-sale filter, and its fields satisfy the
defining equations. -/
theorem mkSaleEntry_some (p : PricedItem) (e : SaleEntry)
    (h : mkSaleEntry p = some e) :
    ∃ pi, p.price = some pi ∧ on_sale pi = true ∧
      0 < pi.regular.getD 0 ∧ pi.promo.getD 0 < pi.regular.getD 0 ∧
      e.regular_price = pi.regular.getD 0 ∧ e.sale_price = pi.promo.getD 0 ∧
      e.savings = e.regular_price - e.sale_price ∧
      e.discount_pct = e.savings / e.regular_price * 100 := by
  unfold mkSaleEntry at h
  split at h
  next => exact absurd h (by simp)
  next pi hp =>
    dsimp only at h
    by_cases hos : on_sale pi
    · rw [if_pos hos] at h
      by_cases hc : 0 < pi.regular.getD 0 ∧ pi.promo.getD 0 < pi.regular.getD 0
      · rw [if_pos hc] at h
        have he := Option.some.inj h
        subst he
        exact ⟨pi, hp, hos, hc.1, hc.2, rfl, rfl, rfl, rfl⟩
      · rw [if_neg hc] at h
        exact absurd h (by simp)
    · rw [if_neg hos] at h
      exact absurd h (by simp)

/-- C4 counterexample: the filter admits a negative promotional price
(the `on_sale` flag and the `sale < regular` guard both pass), and the
resulting entry has a discount percentage of 200, violating the claimed
bound `discountPct <= 100`. -/
theorem C4_counterexample :
    rankOnSale [⟨some "x", none, some ⟨some 1, some (-1)⟩, []⟩] (some 10) =
      [⟨some "x", none, 1, -1, 2, 200, some "N/A"⟩] ∧ (100 : ℚ) < 200 := by
  constructor
  · norm_num [rankOnSale, saleEntries, mkSaleEntry, on_sale, sortBySavings,
      insertBySavings, clampLimit]
  · norm_num

/-- C4 amended: every entry of the ranking output satisfies
`0 <= savings`, `promo < regular`, `0 < discountPct`, with
`savings = regular - promo` and
`discountPct = savings / regular * 100`; the bound `discountPct <= 100`
holds whenever the entry's promotional price is non-negative, but the
filter also admits negative promotional prices, for which the discount
percentage exceeds 100. -/
theorem C4_amended (items : List PricedItem) (lim : Option Int) (e : SaleEntry)
    (h : e ∈ rankOnSale items lim) :
    0 ≤ e.savings ∧ e.sale_price < e.regular_price ∧ 0 < e.discount_pct ∧
    e.savings = e.regular_price - e.sale_price ∧
    e.discount_pct = e.savings / e.regular_price * 100 ∧
    (0 ≤ e.sale_price → e.discount_pct ≤ 100) := by
  obtain ⟨p, _, hmk⟩ := mem_rankOnSale items lim e h
  obtain ⟨pi, _, _, hr, hlt, her, hes, hsv, hdp⟩ := mkSaleEntry_some p e hmk
  rw [← her] at hr
  rw [← her, ← hes] at hlt
  have hsavpos : 0 < e.savings := by rw [hsv]; exact sub_pos.mpr hlt
  refine ⟨le_of_lt hsavpos, hlt, ?_, hsv, hdp, ?_⟩
  · rw [hdp]
    exact mul_pos (div_pos hsavpos hr) (by norm_num)
  · intro hnn
    rw [hdp, hsv]
    have h1 : (e.regular_price - e.sale_price) / e.regular_price ≤ 1 :=
      (div_le_one hr).mpr (sub_le_self _ hnn)
    calc (e.regular_price - e.sale_price) / e.regular_price * 100
        ≤ 1 * 100 := mul_le_mul_of_nonneg_right h1 (by norm_num)
      _ = 100 := one_mul 100

/-- C4 amended, witnessed: the single entry produced from a $2.00 item
on sale for $1.00 satisfies all the invariant's conjuncts. -/
theorem C4_amended_witness :
    (⟨some "x", none, 2, 1, 1, 50, some "N/A"⟩ : SaleEntry) ∈
      rankOnSale [⟨some "x", none, some ⟨some 2, some 1⟩, []⟩] (some 10) ∧
    (0 : ℚ) ≤ 1 ∧ (1 : ℚ) < 2 ∧ (0 : ℚ) < 50 := by
  have hrank : rankOnSale [⟨some "x", none, some ⟨some 2, some 1⟩, []⟩] (some 10) =
      [⟨some "x", none, 2, 1, 1, 50, some "N/A"⟩] := by
    norm_num [rankOnSale, saleEntries, mkSaleEntry, on_sale, sortBySavings,
      insertBySavings, clampLimit]
  have hmem : (⟨some "x", none, 2, 1, 1, 50, some "N/A"⟩ : SaleEntry) ∈
      rankOnSale [⟨some "x", none, some ⟨some 2, some 1⟩, []⟩] (some 10) := by
    rw [hrank]; exact List.mem_singleton.mpr rfl
  have hinv := C4_amended [⟨some "x", none, some ⟨some 2, some 1⟩, []⟩] (some 10)
    ⟨some "x", none, 2, 1, 1, 50, some "N/A"⟩ hmem
  exact ⟨hmem, hinv.1, hinv.2.1, hinv.2.2.1⟩

/-- C5 counterexample: two items with equal savings (2.00) but distinct
discount percentages (25% then 50%) stay in input order — the code keeps
the 25%-discount entry before the 50%-discount entry, violating the
claimed descending-discount tie-break. -/
theorem C5_counterexample :
    rankOnSale [⟨some "b", none, some ⟨some 8, some 6⟩, []⟩,
                ⟨some "a", none, some ⟨some 4, some 2⟩, []⟩] (some 10) =
      [⟨some "b", none, 8, 6, 2, 25, some "N/A"⟩,
       ⟨some "a", none, 4, 2, 2, 50, some "N/A"⟩] ∧ (25 : ℚ) < 50 := by
  constructor
  · norm_num [rankOnSale, saleEntries, mkSaleEntry, on_sale, sortBySavings,
      insertBySavings, clampLimit]
  · norm_num

/-- C5 amended: the computation sorts its surviving entries in
descending order of savings only — a stable sort with no further
tie-break: the output is pairwise non-increasing in savings, and for
every savings value the entries carrying it appear in their input
(production) order; being a pure function, repeated application on the
same input yields the identical output. -/
theorem C5_amended :
    (∀ (items : List PricedItem) (lim : Option Int),
      (rankOnSale items lim).Pairwise (fun a b => b.savings ≤ a.savings)) ∧
    (∀ (items : List PricedItem) (c : ℚ),
      (sortBySavings (saleEntries items)).filter (fun e => e.savings == c) =
        (saleEntries items).filter (fun e => e.savings == c)) := by
  constructor
  · intro items lim
    exact (pairwise_sortBySavings (saleEntries items)).sublist (List.take_sublist _ _)
  · intro items c
    exact filter_sortBySavings (saleEntries items) c

/-- C7 counterexample: with one on-sale item and a requested limit of
zero, the result is not empty — the limit is clamped up to 1 and one
entry is returned. -/
theorem C7_counterexample :
    rankOnSale [⟨some "x", none, some ⟨some 2, some 1⟩, []⟩] (some 0) =
      [⟨some "x", none, 2, 1, 1, 50, some "N/A"⟩] ∧
    (rankOnSale [⟨some "x", none, some ⟨some 2, some 1⟩, []⟩] (some 0)).length = 1 := by
  have h : rankOnSale [⟨some "x", none, some ⟨some 2, some 1⟩, []⟩] (some 0) =
      [⟨some "x", none, 2, 1, 1, 50, some "N/A"⟩] := by
    norm_num [rankOnSale, saleEntries, mkSaleEntry, on_sale, sortBySavings,
      insertBySavings, clampLimit]
  exact ⟨h, by rw [h]; rfl⟩

/-- C7 amended: an empty item list yields an empty result and never an
error; a requested limit of zero is clamped up to one, so it yields at
most one entry (an empty result only when no item survives the filter);
the computation is a pure function of its input, which it does not
mutate. -/
theorem C7_amended :
    (∀ lim : Option Int, rankOnSale [] lim = []) ∧
    (∀ items : List PricedItem, (rankOnSale items (some 0)).length ≤ 1) := by
  constructor
  · intro lim
    simp [rankOnSale, saleEntries, sortBySavings]
  · intro items
    have hcl : clampLimit (some 0) = 1 := rfl
    simp only [rankOnSale, hcl]
    exact List.length_take_le 1 _
